import Mathlib

/-!
Verification of the `airflow_tableau_provider` repository: a shallow embedding of
`tableau_hook.py` (`TableauApiHook`) and `tableau_operator.py` (`TableauApiOperator`)
together with theorems settling the behavioural claims about them.

The external world (the Airflow connection store, the Tableau server's directory,
trigger endpoint and job-status endpoint) is an explicit `Env`; every observable
side effect (sign-in, sign-out, directory query, trigger, poll, sleep, log line)
is recorded in a `Trace` so that resource-lifecycle and no-network-call claims
become statements about the trace.
-/

deriving instance DecidableEq for Except

namespace TableauProvider

/-- Python string membership `needle in hay`: contiguous-substring containment. -/
def pyIn (needle hay : String) : Bool := decide (needle.data <:+: hay.data)

/-- Python `a or b` for an optional string: `b` is taken when `a` is `None` and
also when `a` is the empty string (falsy). -/
def pyOr (a : Option String) (b : String) : String :=
  match a with
  | some s => if s = "" then b else s
  | none => b

/-- The fields of the stored connection record's `extra_dejson` map that the code
reads; an absent key is `none`. -/
structure ConnExtra where
  site_id : Option String
  token_name : Option String
  personal_access_token : Option String
deriving Repr, DecidableEq

/-- A stored Airflow connection record: host plus the extra-JSON fields. -/
structure Connection where
  host : String
  extra : ConnExtra
deriving Repr, DecidableEq

/-- One entry of the server's resource directory, as returned by `filter`. -/
structure DirEntry where
  id : String
deriving Repr, DecidableEq

/-- Remote job status as observed by one poll. -/
inductive JobStatus where
  | pending
  | succeeded
  | failed (reason : String)
deriving Repr, DecidableEq

/-- The Python exceptions the embedded code can raise.  The spec's abstract error
taxonomy maps onto them as follows: `ConfigurationError` is the `KeyError` raised
by `extra_dejson["token_name"]` / `extra_dejson["personal_access_token"]`;
`UnsupportedResourceError` is the `AirflowException` raised by the validation at
the top of `execute`; `ResourceNotFoundError` is the `IndexError` raised by
`get_resource[0]` on an empty query result; `RemoteActionError` is the re-raised
`ServerResponseError` from the trigger; `JobFailedError` is the failure raised
out of the job-wait loop.  `attributeError` is the `AttributeError` raised by
`getattr(resource, self.method)` when the method names no attribute of the
endpoint object; the `except ServerResponseError` clause does not catch it. -/
inductive PyErr where
  | keyError (field : String)
  | airflowException (msg : String)
  | indexError
  | serverResponseError (msg : String)
  | jobFailedError (reason : String)
  | pollsExhausted
  | attributeError (name : String)
deriving Repr, DecidableEq

/-- The external world of one `execute` run: the stored connection record, the
outcome of the sign-in round-trip, the directory rows the server returns for the
(project name, resource name) query, the trigger endpoint's answer per resource
id, and the successive job statuses the polling endpoint reports. -/
structure Env where
  conn : Connection
  signIn : Except String Unit
  filterResult : List DirEntry
  trigger : String → Except String String
  polls : List JobStatus

/-- Observable side effects of a run: counts of sign-in and sign-out round-trips,
directory queries, the resource ids the trigger was invoked on, the number of
job-status polls, the sleep intervals between polls, and the log lines. -/
structure Trace where
  signIns : Nat
  signOuts : Nat
  filters : Nat
  triggeredIds : List String
  pollCount : Nat
  sleeps : List Nat
  logs : List String
deriving Repr, DecidableEq

/-- The empty trace. -/
def Trace.empty : Trace := ⟨0, 0, 0, [], 0, [], []⟩

/-- Total number of network round-trips a trace records. -/
def Trace.networkCalls (t : Trace) : Nat :=
  t.signIns + t.signOuts + t.filters + t.triggeredIds.length + t.pollCount

/-- The module-level dictionary of supported resources and their methods, as an
association list (keys are the dict keys, values the method strings). -/
def available_resources : List (String × String) :=
  [("datasources", "refresh"), ("workbooks", "refresh")]

/-- Python's repr of the `available_resources` dict, as interpolated into the
validation error message by the f-string. -/
def availableResourcesRepr : String :=
  "\x7b\x27datasources\x27: \x27refresh\x27, \x27workbooks\x27: \x27refresh\x27\x7d"

/-- Constructor arguments of `TableauApiOperator`. -/
structure Op where
  resource : String
  method : String
  resource_name : String
  project_name : String
  site_id : Option String
  blocking_refresh : Bool
  tableau_conn_id : String
deriving Repr, DecidableEq

/-- Site-id resolution in `TableauApiHook.__init__`:
`site_id or self.conn.extra_dejson.get("site_id", "")`. -/
def hookSiteId (site_id : Option String) (conn : Connection) : String :=
  pyOr site_id (conn.extra.site_id.getD "")

/-- `TableauApiHook.get_conn`: reads `extra_dejson["token_name"]` and
`extra_dejson["personal_access_token"]` (each raising `KeyError` when absent),
builds the `PersonalAccessTokenAuth` (pure), then performs the sign-in network
round-trip.  Returns the outcome together with the number of network calls made. -/
def get_conn (conn : Connection) (signIn : Except String Unit) :
    Except PyErr Unit × Nat :=
  match conn.extra.token_name with
  | none => (.error (.keyError "token_name"), 0)
  | some _ =>
    match conn.extra.personal_access_token with
    | none => (.error (.keyError "personal_access_token"), 0)
    | some _ =>
      match signIn with
      | .ok _ => (.ok (), 1)
      | .error m => (.error (.serverResponseError m), 1)

/-- `TableauApiOperator.get_resource_id` on the rows the directory query
returned: `get_resource[0].id`, an `IndexError` when there are zero rows. -/
def get_resource_id (filterResult : List DirEntry) : Except PyErr String :=
  match filterResult with
  | [] => .error .indexError
  | e :: _ => .ok e.id

/-- Result of the poll loop: outcome, number of polls, sleep intervals. -/
structure PollResult where
  result : Except PyErr Unit
  pollCount : Nat
  sleeps : List Nat
deriving Repr, DecidableEq

/-- Modelled from the spec: the poll-interval cap of the Job Wait protocol
(the loop itself lives in the third-party client library, not in this
repository); intervals are "bounded by a maximum interval". -/
def maxPollInterval : Nat := 30

/-- Modelled from the spec: the Job Wait protocol's poll loop, which in the
source is the third-party library's `jobs.wait_for_job` and is not part of this
repository.  Per §4.2: poll repeatedly; on SUCCEEDED return normally; on FAILED
fail with `JobFailedError` carrying the server's reason and stop polling;
between polls sleep for an interval that starts small and doubles (exponential
backoff), bounded by `maxPollInterval`.  The supplied status list is the
sequence of statuses the server reports; exhausting it without reaching a
terminal status is reported as `pollsExhausted`. -/
def pollLoop : List JobStatus → Nat → PollResult
  | [], _ => ⟨.error .pollsExhausted, 0, []⟩
  | .succeeded :: _, _ => ⟨.ok (), 1, []⟩
  | .failed r :: _, _ => ⟨.error (.jobFailedError r), 1, []⟩
  | .pending :: rest, interval =>
    let r := pollLoop rest (min (interval * 2) maxPollInterval)
    ⟨r.result, r.pollCount + 1, interval :: r.sleeps⟩

/-- Modelled from the spec: the full library wait, first poll near-immediate,
initial sleep interval small (1 unit). -/
def waitForJobLib (polls : List JobStatus) : PollResult :=
  pollLoop polls 1

/-- `TableauApiOperator.wait_for_job`: logs, delegates to the library wait, logs
success, and on a `ServerResponseError` logs and re-raises; any other failure
propagates unchanged. -/
def wait_for_job (polls : List JobStatus) : PollResult × List String :=
  let r := waitForJobLib polls
  match r.result with
  | .ok _ => (r, ["Waiting for job...", "Job finished succesfully"])
  | .error (.serverResponseError m) => (r, ["Waiting for job...", "Job failed! " ++ m])
  | .error _ => (r, ["Waiting for job..."])

/-- The validation at the top of `TableauApiOperator.execute`: dict-key
membership for the resource, then Python string containment (`in` on the method
string) for the method; each failure is an `AirflowException` whose message
interpolates the available resources/methods. -/
def validate (op : Op) : Except PyErr String :=
  match available_resources.lookup op.resource with
  | none =>
    .error (.airflowException
      ("Resource not found! Available Resources: " ++ availableResourcesRepr))
  | some ms =>
    if pyIn op.method ms then .ok ms
    else
      .error (.airflowException
        ("Method not found! Available methods for " ++ op.resource ++ ": " ++ ms))

/-- The body of the `with` block in `execute`: resolve the resource id (an
`IndexError` ends the body when the query returned no rows); then, inside the
`try`, `getattr(resource, self.method)` dispatches the method — among the
strings that pass validation (contiguous substrings of "refresh") exactly
"refresh" is an attribute of the third-party workbooks/datasources endpoint
objects, so every other validated method raises an `AttributeError` there,
which the `except ServerResponseError` clause does not catch and which
propagates without the trigger ever being invoked; on successful dispatch the
trigger runs (a `ServerResponseError` is logged and re-raised), then the
blocking wait runs exactly when the method equals "refresh" and
`blocking_refresh` is set. -/
def executeBody (op : Op) (env : Env) : Except PyErr String × Trace :=
  match env.filterResult with
  | [] => (.error .indexError, ⟨0, 0, 1, [], 0, [], []⟩)
  | e :: _ =>
    let rid := e.id
    let infoLog := "Here is the resource id for the " ++ op.resource ++
      " specified: " ++ rid
    if op.method = "refresh" then
      match env.trigger rid with
      | .error m =>
        (.error (.serverResponseError m),
          ⟨0, 0, 1, [rid], 0, [], [infoLog, "Refresh failed! " ++ m]⟩)
      | .ok jobId =>
        let trigLog := "The refresh of " ++ op.resource ++ ": " ++ rid ++
          " has been triggered."
        if op.method = "refresh" && op.blocking_refresh then
          let w := wait_for_job env.polls
          let res : Except PyErr String :=
            match w.1.result with
            | .ok _ => .ok jobId
            | .error e2 => .error e2
          (res, ⟨0, 0, 1, [rid], w.1.pollCount, w.1.sleeps, [infoLog, trigLog] ++ w.2⟩)
        else
          (.ok jobId, ⟨0, 0, 1, [rid], 0, [], [infoLog, trigLog]⟩)
    else
      (.error (.attributeError op.method), ⟨0, 0, 1, [], 0, [], [infoLog]⟩)

/-- `TableauApiOperator.execute`: validation first (before any session);
then `with TableauApiHook(...)`: `__enter__` runs `get_conn` (a failure there
propagates with no `__exit__`, exactly as in Python); on successful entry the
body runs and `__exit__` performs the sign-out exactly once whether the body
returned or raised; finally the body's outcome (job id or exception) is
delivered to the caller. -/
def execute (op : Op) (env : Env) : Except PyErr String × Trace :=
  match validate op with
  | .error e => (.error e, Trace.empty)
  | .ok _ =>
    match get_conn env.conn env.signIn with
    | (.error e, n) => (.error e, ⟨n, 0, 0, [], 0, [], []⟩)
    | (.ok _, n) =>
      let b := executeBody op env
      (b.1, ⟨n, 1, b.2.filters, b.2.triggeredIds, b.2.pollCount, b.2.sleeps, b.2.logs⟩)

/-! Concrete fixtures used by witness theorems. -/

/-- A fully populated connection record. -/
def connW : Connection := ⟨"https://tableau.example.com", ⟨some "site1", some "tok", some "secret"⟩⟩

/-- A connection record whose extra JSON lacks `token_name`. -/
def connNoTokenName : Connection := ⟨"https://tableau.example.com", ⟨none, none, some "secret"⟩⟩

/-- A connection record whose extra JSON lacks `personal_access_token`. -/
def connNoSecret : Connection := ⟨"https://tableau.example.com", ⟨none, some "tok", none⟩⟩

/-- First directory row. -/
def entryA : DirEntry := ⟨"res-A"⟩

/-- Second directory row. -/
def entryB : DirEntry := ⟨"res-B"⟩

/-! Helper lemmas shared by several claims. -/

/-- String containment holds for any actual contiguous sublist of characters. -/
theorem pyIn_of_infix (n h : String) (hs : n.data <:+: h.data) : pyIn n h = true :=
  decide_eq_true hs

/-- The only method value stored in `available_resources` is "refresh". -/
theorem lookup_available_resources_eq (r ms : String)
    (h : List.lookup r available_resources = some ms) : ms = "refresh" := by
  simp only [available_resources, List.lookup] at h
  by_cases h1 : r == "datasources"
  · simp [h1] at h
    exact h.symm
  · by_cases h2 : r == "workbooks"
    · simp [h1, h2] at h
      exact h.symm
    · simp [h1, h2] at h

/-- The operator configuration used by most witnesses: refresh a workbook, blocking. -/
def opRefresh : Op := ⟨"workbooks", "refresh", "Q1", "Sales", none, true, "tableau_default"⟩

/-- Same configuration with `blocking_refresh = false`. -/
def opNonBlocking : Op := ⟨"workbooks", "refresh", "Q1", "Sales", none, false, "tableau_default"⟩

/-- Same configuration with the misspelled method "fresh" (a proper substring of "refresh"). -/
def opFresh : Op := ⟨"workbooks", "fresh", "Q1", "Sales", none, true, "tableau_default"⟩

/-- A trigger endpoint that always answers with the given job id. -/
def trigJob (j : String) : String → Except String String := fun _ => .ok j

/-- Environment where everything succeeds after three polls. -/
def envOk : Env := ⟨connW, .ok (), [entryA], trigJob "job-9", [.pending, .pending, .succeeded]⟩

/-- Environment whose directory query returns zero rows. -/
def envEmpty : Env := ⟨connW, .ok (), [], trigJob "job-9", []⟩

/-- Environment whose directory query returns two rows. -/
def envTwo : Env := ⟨connW, .ok (), [entryA, entryB], trigJob "job-9", [.succeeded]⟩

/-- Environment whose trigger endpoint rejects the request. -/
def envTrigFail : Env := ⟨connW, .ok (), [entryA], fun _ => .error "503 Service Unavailable", []⟩

/-- Environment whose job reaches FAILED after one pending poll. -/
def envPollFail : Env := ⟨connW, .ok (), [entryA], trigJob "job-9", [.pending, .failed "extract error"]⟩

/-- C1: for every execution whose validation passes and whose sign-in succeeds
(the session is opened), the sign-out runs exactly once — whatever the
directory, trigger and polling outcomes are, i.e. whether the body returns
normally or raises during lookup, trigger, or polling. -/
theorem execute_closes_session_once (op : Op) (env : Env) (ms tn pat : String)
    (hres : List.lookup op.resource available_resources = some ms)
    (hm : pyIn op.method ms = true)
    (htn : env.conn.extra.token_name = some tn)
    (hpat : env.conn.extra.personal_access_token = some pat)
    (hsign : env.signIn = .ok ()) :
    (execute op env).2.signOuts = 1 ∧ (execute op env).2.signIns = 1 := by
  simp [execute, validate, get_conn, hres, hm, htn, hpat, hsign]

/-- Witness for C1 at a run that raises during polling (job reaches FAILED). -/
theorem execute_closes_session_once_witness :
    (execute opRefresh envPollFail).2.signOuts = 1 ∧
    (execute opRefresh envPollFail).2.signIns = 1 :=
  execute_closes_session_once opRefresh envPollFail "refresh" "tok" "secret"
    (by decide) (by decide) rfl rfl rfl

/-- C2: when the directory query returns zero matches (and execution reached the
query, i.e. validation and sign-in succeeded), `execute` fails with the
zero-match lookup error — `get_resource[0]` on an empty result, the code's
realisation of the spec's `ResourceNotFoundError`. -/
theorem execute_zero_matches_fails (op : Op) (env : Env) (ms tn pat : String)
    (hres : List.lookup op.resource available_resources = some ms)
    (hm : pyIn op.method ms = true)
    (htn : env.conn.extra.token_name = some tn)
    (hpat : env.conn.extra.personal_access_token = some pat)
    (hsign : env.signIn = .ok ())
    (hfilter : env.filterResult = []) :
    (execute op env).1 = .error .indexError ∧ (execute op env).2.signOuts = 1 := by
  simp [execute, validate, get_conn, executeBody, hres, hm, htn, hpat, hsign, hfilter]

/-- Witness for C2 on an environment whose directory query returns no rows. -/
theorem execute_zero_matches_fails_witness :
    (execute opRefresh envEmpty).1 = .error .indexError ∧
    (execute opRefresh envEmpty).2.signOuts = 1 :=
  execute_zero_matches_fails opRefresh envEmpty "refresh" "tok" "secret"
    (by decide) (by decide) rfl rfl rfl rfl

/-- C4: for every stored connection record missing `token_name` or
`personal_access_token`, `get_conn` (session opening) fails with the
corresponding `KeyError` — the code's realisation of the spec's
`ConfigurationError` — and performs zero network calls. -/
theorem get_conn_missing_credentials (conn : Connection) (signIn : Except String Unit)
    (h : conn.extra.token_name = none ∨ conn.extra.personal_access_token = none) :
    (∃ f, (get_conn conn signIn).1 = .error (.keyError f) ∧
      (f = "token_name" ∨ f = "personal_access_token")) ∧
    (get_conn conn signIn).2 = 0 := by
  rcases h with h | h
  · exact ⟨⟨"token_name", by simp [get_conn, h], Or.inl rfl⟩, by simp [get_conn, h]⟩
  · cases htn : conn.extra.token_name with
    | none => exact ⟨⟨"token_name", by simp [get_conn, htn], Or.inl rfl⟩, by simp [get_conn, htn]⟩
    | some tn =>
      exact ⟨⟨"personal_access_token", by simp [get_conn, htn, h], Or.inr rfl⟩,
        by simp [get_conn, htn, h]⟩

/-- Witness for C4 on a record lacking `personal_access_token`. -/
theorem get_conn_missing_credentials_witness :
    (∃ f, (get_conn connNoSecret (.ok ())).1 = .error (.keyError f) ∧
      (f = "token_name" ∨ f = "personal_access_token")) ∧
    (get_conn connNoSecret (.ok ())).2 = 0 :=
  get_conn_missing_credentials connNoSecret (.ok ()) (Or.inr rfl)

/-- C5: with `blocking_refresh = false` and a successful trigger returning a job
id (so the dispatched method is "refresh", the one the endpoint carries),
`execute` returns that job id with zero job-status polls and zero sleeps. -/
theorem execute_nonblocking_returns_immediately (op : Op) (env : Env)
    (ms tn pat j : String) (a : DirEntry) (rest : List DirEntry)
    (hres : List.lookup op.resource available_resources = some ms)
    (hm : pyIn op.method ms = true)
    (hmethod : op.method = "refresh")
    (htn : env.conn.extra.token_name = some tn)
    (hpat : env.conn.extra.personal_access_token = some pat)
    (hsign : env.signIn = .ok ())
    (hfilter : env.filterResult = a :: rest)
    (htrig : env.trigger a.id = .ok j)
    (hblock : op.blocking_refresh = false) :
    (execute op env).1 = .ok j ∧ (execute op env).2.pollCount = 0 ∧
    (execute op env).2.sleeps = [] := by
  have hm' : pyIn "refresh" ms = true := hmethod ▸ hm
  simp [execute, validate, get_conn, executeBody, hres, hm, hm', hmethod, htn, hpat,
    hsign, hfilter, htrig, hblock]

/-- Witness for C5: non-blocking refresh returns "job-9" with no polls. -/
theorem execute_nonblocking_returns_immediately_witness :
    (execute opNonBlocking envOk).1 = .ok "job-9" ∧
    (execute opNonBlocking envOk).2.pollCount = 0 ∧
    (execute opNonBlocking envOk).2.sleeps = [] :=
  execute_nonblocking_returns_immediately opNonBlocking envOk "refresh" "tok" "secret"
    "job-9" entryA [] (by decide) (by decide) rfl rfl rfl rfl rfl rfl rfl

/-- The poll loop never produces the zero-match lookup error: its failures are
job failures or exhaustion, so a post-lookup failure is never the lookup one. -/
theorem pollLoop_result_ne_indexError (polls : List JobStatus) (i : Nat) :
    (pollLoop polls i).result ≠ Except.error PyErr.indexError := by
  induction polls generalizing i with
  | nil => simp [pollLoop]
  | cons s rest ih =>
    cases s
    · simp only [pollLoop]
      exact ih _
    · simp [pollLoop]
    · simp [pollLoop]

/-- The repository's `wait_for_job` only adds log lines around the library wait;
its poll outcome is the library's. -/
theorem wait_for_job_fst (polls : List JobStatus) :
    (wait_for_job polls).1 = waitForJobLib polls := by
  unfold wait_for_job
  cases h : (waitForJobLib polls).result with
  | ok u => simp [h]
  | error e => cases e <;> simp [h]

/-- With a nonempty directory result, the body never raises the zero-match error. -/
theorem executeBody_ne_indexError (op : Op) (env : Env) (a : DirEntry) (rest : List DirEntry)
    (hfilter : env.filterResult = a :: rest) :
    (executeBody op env).1 ≠ .error .indexError := by
  have hp := pollLoop_result_ne_indexError env.polls 1
  by_cases hmeth : op.method = "refresh"
  · cases htr : env.trigger a.id with
    | error m => simp [executeBody, hfilter, htr, hmeth]
    | ok j =>
      have h1 : (wait_for_job env.polls).1 = waitForJobLib env.polls := wait_for_job_fst env.polls
      simp only [executeBody, hfilter, htr, hmeth, if_true, reduceIte]
      split
      · cases hw : (waitForJobLib env.polls).result with
        | ok u => simp [h1, hw]
        | error e2 =>
          have hw1 : (pollLoop env.polls 1).result = .error e2 := by
            simpa [waitForJobLib] using hw
          rw [hw1] at hp
          simp [h1, hw]
          intro he
          exact hp (by rw [he])
      · simp
  · simp [executeBody, hfilter, hmeth]

/-- C6: when the directory query returns two or more matches (on a refresh run,
whose dispatch succeeds), resolution does not fail: it yields the id of the
first returned entry, the trigger is invoked on exactly that id, and `execute`
never raises the zero-match lookup error. -/
theorem execute_multiple_matches_uses_first (op : Op) (env : Env)
    (ms tn pat : String) (a b : DirEntry) (rest : List DirEntry)
    (hres : List.lookup op.resource available_resources = some ms)
    (hm : pyIn op.method ms = true)
    (hmethod : op.method = "refresh")
    (htn : env.conn.extra.token_name = some tn)
    (hpat : env.conn.extra.personal_access_token = some pat)
    (hsign : env.signIn = .ok ())
    (hfilter : env.filterResult = a :: b :: rest) :
    get_resource_id env.filterResult = .ok a.id ∧
    (execute op env).2.triggeredIds = [a.id] ∧
    (execute op env).1 ≠ .error .indexError := by
  have hm' : pyIn "refresh" ms = true := hmethod ▸ hm
  have hbody := executeBody_ne_indexError op env a (b :: rest) hfilter
  have htrig : (executeBody op env).2.triggeredIds = [a.id] := by
    cases htr : env.trigger a.id with
    | error m => simp [executeBody, hfilter, htr, hmethod]
    | ok j =>
      simp only [executeBody, hfilter, htr, hmethod]
      split
      · split <;> simp
      · simp_all
  refine ⟨by simp [get_resource_id, hfilter], ?_, ?_⟩ <;>
    simp [execute, validate, get_conn, hres, hm, hm', hmethod, htn, hpat, hsign,
      htrig, hbody]

/-- Witness for C6 on a two-row directory result: the first row's id is used. -/
theorem execute_multiple_matches_uses_first_witness :
    get_resource_id envTwo.filterResult = .ok entryA.id ∧
    (execute opRefresh envTwo).2.triggeredIds = [entryA.id] ∧
    (execute opRefresh envTwo).1 ≠ .error .indexError :=
  execute_multiple_matches_uses_first opRefresh envTwo "refresh" "tok" "secret"
    entryA entryB [] (by decide) (by decide) rfl rfl rfl rfl rfl

/-- C8: when the server rejects the trigger, `execute` fails with the re-raised
`ServerResponseError` (the spec's `RemoteActionError`) wrapping the server's
message, the error is logged at the point of detection, and the session is still
signed out (the error is re-raised, not swallowed). -/
theorem execute_trigger_rejected_propagates (op : Op) (env : Env)
    (ms tn pat m : String) (a : DirEntry) (rest : List DirEntry)
    (hres : List.lookup op.resource available_resources = some ms)
    (hm : pyIn op.method ms = true)
    (hmethod : op.method = "refresh")
    (htn : env.conn.extra.token_name = some tn)
    (hpat : env.conn.extra.personal_access_token = some pat)
    (hsign : env.signIn = .ok ())
    (hfilter : env.filterResult = a :: rest)
    (htrig : env.trigger a.id = .error m) :
    (execute op env).1 = .error (.serverResponseError m) ∧
    ("Refresh failed! " ++ m) ∈ (execute op env).2.logs ∧
    (execute op env).2.signOuts = 1 := by
  have hm' : pyIn "refresh" ms = true := hmethod ▸ hm
  simp [execute, validate, get_conn, executeBody, hres, hm, hm', hmethod, htn, hpat,
    hsign, hfilter, htrig]

/-- Witness for C8 on a trigger rejected with "503 Service Unavailable". -/
theorem execute_trigger_rejected_propagates_witness :
    (execute opRefresh envTrigFail).1 = .error (.serverResponseError "503 Service Unavailable") ∧
    ("Refresh failed! " ++ "503 Service Unavailable") ∈ (execute opRefresh envTrigFail).2.logs ∧
    (execute opRefresh envTrigFail).2.signOuts = 1 :=
  execute_trigger_rejected_propagates opRefresh envTrigFail "refresh" "tok" "secret"
    "503 Service Unavailable" entryA [] (by decide) (by decide) rfl rfl rfl rfl rfl rfl

/-- On a status sequence of `n` pendings followed by FAILED, the poll loop ends
with the job-failure error carrying the server's reason, after exactly `n + 1`
polls: nothing after the terminal FAILED is consumed. -/
theorem pollLoop_failed (n : Nat) (r : String) (rest : List JobStatus) :
    ∀ i, (pollLoop (List.replicate n .pending ++ .failed r :: rest) i).result
        = .error (.jobFailedError r) ∧
      (pollLoop (List.replicate n .pending ++ .failed r :: rest) i).pollCount = n + 1 := by
  induction n with
  | zero => intro i; simp [pollLoop]
  | succ k ih =>
    intro i
    have h := ih (min (i * 2) maxPollInterval)
    simp [List.replicate_succ, pollLoop, h.1, h.2]

/-- C7: when the blocking wait's polled job reaches FAILED (after any number of
pending polls), `execute` fails with the job-failure error carrying the server's
reason, and the number of polls is exactly the pendings plus the terminal FAILED
poll — no further polls happen after the terminal FAILED. -/
theorem execute_failed_job_raises_and_stops (op : Op) (env : Env)
    (ms tn pat j r : String) (a : DirEntry) (rest : List DirEntry)
    (n : Nat) (restPolls : List JobStatus)
    (hres : List.lookup op.resource available_resources = some ms)
    (hm : pyIn op.method ms = true)
    (htn : env.conn.extra.token_name = some tn)
    (hpat : env.conn.extra.personal_access_token = some pat)
    (hsign : env.signIn = .ok ())
    (hmethod : op.method = "refresh")
    (hblock : op.blocking_refresh = true)
    (hfilter : env.filterResult = a :: rest)
    (htrig : env.trigger a.id = .ok j)
    (hpolls : env.polls = List.replicate n .pending ++ .failed r :: restPolls) :
    (execute op env).1 = .error (.jobFailedError r) ∧
    (execute op env).2.pollCount = n + 1 := by
  have hm' : pyIn "refresh" ms = true := hmethod ▸ hm
  have hpl := pollLoop_failed n r restPolls 1
  have hw1 : (wait_for_job env.polls).1 = waitForJobLib env.polls := wait_for_job_fst env.polls
  have hres1 : (waitForJobLib env.polls).result = .error (.jobFailedError r) := by
    rw [waitForJobLib, hpolls]; exact hpl.1
  have hcnt : (waitForJobLib env.polls).pollCount = n + 1 := by
    rw [waitForJobLib, hpolls]; exact hpl.2
  simp [execute, validate, get_conn, executeBody, hres, hm, hm', htn, hpat, hsign,
    hfilter, htrig, hmethod, hblock, hw1, hres1, hcnt]

/-- Witness for C7: one pending poll, then FAILED with reason "extract error". -/
theorem execute_failed_job_raises_and_stops_witness :
    (execute opRefresh envPollFail).1 = .error (.jobFailedError "extract error") ∧
    (execute opRefresh envPollFail).2.pollCount = 1 + 1 :=
  execute_failed_job_raises_and_stops opRefresh envPollFail "refresh" "tok" "secret"
    "job-9" "extract error" entryA [] 1 [] (by decide) (by decide) rfl rfl rfl rfl rfl
    rfl rfl rfl

/-- C9: with a blocking refresh and poll sequence [PENDING, PENDING, SUCCEEDED],
`execute` polls exactly 3 times, its sleep intervals are non-decreasing and each
bounded by the maximum interval, and the triggered job id is returned. -/
theorem execute_blocking_three_polls (op : Op) (env : Env)
    (ms tn pat j : String) (a : DirEntry) (rest : List DirEntry)
    (hres : List.lookup op.resource available_resources = some ms)
    (hm : pyIn op.method ms = true)
    (htn : env.conn.extra.token_name = some tn)
    (hpat : env.conn.extra.personal_access_token = some pat)
    (hsign : env.signIn = .ok ())
    (hmethod : op.method = "refresh")
    (hblock : op.blocking_refresh = true)
    (hfilter : env.filterResult = a :: rest)
    (htrig : env.trigger a.id = .ok j)
    (hpolls : env.polls = [.pending, .pending, .succeeded]) :
    (execute op env).1 = .ok j ∧
    (execute op env).2.pollCount = 3 ∧
    List.Chain' (· ≤ ·) (execute op env).2.sleeps ∧
    ∀ s ∈ (execute op env).2.sleeps, s ≤ maxPollInterval := by
  have hm' : pyIn "refresh" ms = true := hmethod ▸ hm
  have hsl : (execute op env).1 = .ok j ∧ (execute op env).2.pollCount = 3 ∧
      (execute op env).2.sleeps = [1, 2] := by
    simp [execute, validate, get_conn, executeBody, wait_for_job, waitForJobLib,
      pollLoop, maxPollInterval, hres, hm, hm', htn, hpat, hsign, hfilter, htrig,
      hmethod, hblock, hpolls]
  refine ⟨hsl.1, hsl.2.1, ?_, ?_⟩
  · rw [hsl.2.2]
    simp [List.chain'_cons]
  · rw [hsl.2.2]
    decide

/-- Witness for C9 on the concrete three-status environment. -/
theorem execute_blocking_three_polls_witness :
    (execute opRefresh envOk).1 = .ok "job-9" ∧
    (execute opRefresh envOk).2.pollCount = 3 ∧
    List.Chain' (· ≤ ·) (execute opRefresh envOk).2.sleeps ∧
    ∀ s ∈ (execute opRefresh envOk).2.sleeps, s ≤ maxPollInterval :=
  execute_blocking_three_polls opRefresh envOk "refresh" "tok" "secret" "job-9"
    entryA [] (by decide) (by decide) rfl rfl rfl rfl rfl rfl rfl rfl

/-- C10: every method string that is a contiguous substring of "refresh" but is
not "refresh" itself passes validation (membership is Python string containment
in the supported-methods value "refresh"), yet the blocking wait never runs for
it — zero polls and zero sleeps even with `blocking_refresh = true` — because
the wait is gated on exact equality with "refresh"; indeed such a run never gets
that far: the `getattr` dispatch raises an uncaught `AttributeError` for the
substring method, after the session was acquired. -/
theorem execute_substring_method_accepted_skips_wait (op : Op) (env : Env)
    (ms tn pat : String) (a : DirEntry) (rest : List DirEntry)
    (hsub : op.method.data <:+: ("refresh" : String).data)
    (hne : op.method ≠ "refresh")
    (hres : List.lookup op.resource available_resources = some ms)
    (htn : env.conn.extra.token_name = some tn)
    (hpat : env.conn.extra.personal_access_token = some pat)
    (hsign : env.signIn = .ok ())
    (hfilter : env.filterResult = a :: rest)
    (_hblock : op.blocking_refresh = true) :
    validate op = .ok ms ∧
    (execute op env).1 = .error (.attributeError op.method) ∧
    (execute op env).2.pollCount = 0 ∧
    (execute op env).2.sleeps = [] := by
  have hms : ms = "refresh" := lookup_available_resources_eq _ _ hres
  have hm : pyIn op.method ms = true := by rw [hms]; exact pyIn_of_infix _ _ hsub
  have hv : validate op = .ok ms := by simp [validate, hres, hm]
  refine ⟨hv, ?_⟩
  simp [execute, validate, get_conn, executeBody, hres, hm, htn, hpat, hsign,
    hfilter, hne]

/-- Witness for C10 with the method "fresh", a proper substring of "refresh". -/
theorem execute_substring_method_accepted_skips_wait_witness :
    validate opFresh = .ok "refresh" ∧
    (execute opFresh envOk).1 = .error (.attributeError "fresh") ∧
    (execute opFresh envOk).2.pollCount = 0 ∧
    (execute opFresh envOk).2.sleeps = [] :=
  execute_substring_method_accepted_skips_wait opFresh envOk "refresh" "tok" "secret"
    entryA [] (by decide) (by decide) (by decide) rfl rfl rfl rfl rfl

set_option maxRecDepth 4000 in
/-- C3 counterexample: the pair (resource "workbooks", method "fresh") is
unsupported per the spec — the only supported action for a workbook is
"refresh" — yet `execute` does not fail with the validation error
(`UnsupportedResourceError`) before acquiring a Session: validation accepts the
pair and a session is acquired (one sign-in); the run then dies at the
`getattr` dispatch with an uncaught `AttributeError`, after the session was
acquired and with a different error than the claim requires. -/
theorem execute_unsupported_pair_not_rejected_cex :
    validate opFresh = .ok "refresh" ∧
    (execute opFresh envOk).2.signIns = 1 ∧
    (execute opFresh envOk).1 = .error (.attributeError "fresh") := by
  refine ⟨by decide, by decide, by decide⟩

set_option maxRecDepth 8000 in
/-- C3 amended: for every resourceKind outside {datasources, workbooks}, and
for every method that is not a contiguous substring of the supported-methods
string "refresh", `execute` fails with the validation `AirflowException` (the
spec's `UnsupportedResourceError`) before acquiring a Session (the trace is
empty, so zero sign-ins), and the message enumerates the supported set: it
contains "refresh", and in the unknown-resource case both "datasources" and
"workbooks". -/
theorem execute_validation_rejects_unsupported (op : Op) (env : Env)
    (h : List.lookup op.resource available_resources = none ∨
      pyIn op.method "refresh" = false) :
    ∃ msg, execute op env = (.error (.airflowException msg), Trace.empty) ∧
      pyIn "refresh" msg = true ∧
      (List.lookup op.resource available_resources = none →
        pyIn "datasources" msg = true ∧ pyIn "workbooks" msg = true) := by
  cases hl : List.lookup op.resource available_resources with
  | none =>
    refine ⟨"Resource not found! Available Resources: " ++ availableResourcesRepr,
      ?_, ?_, fun _ => ⟨?_, ?_⟩⟩
    · simp [execute, validate, hl]
    · decide
    · decide
    · decide
  | some ms =>
    have hms : ms = "refresh" := lookup_available_resources_eq _ _ hl
    subst hms
    have hmf : pyIn op.method "refresh" = false := by
      rcases h with h | h
      · rw [hl] at h; cases h
      · exact h
    refine ⟨"Method not found! Available methods for " ++ op.resource ++ ": " ++ "refresh",
      ?_, ?_, ?_⟩
    · simp [execute, validate, hl, hmf]
    · apply pyIn_of_infix
      rw [String.data_append]
      exact (List.suffix_append _ _).isInfix
    · intro hnone; exact Option.noConfusion hnone

/-- Witness for the amended C3 at the unsupported resource "flows". -/
theorem execute_validation_rejects_unsupported_witness :
    ∃ msg, execute ⟨"flows", "refresh", "Q1", "Sales", none, true, "tableau_default"⟩ envOk
        = (.error (.airflowException msg), Trace.empty) ∧
      pyIn "refresh" msg = true ∧
      (List.lookup "flows" available_resources = none →
        pyIn "datasources" msg = true ∧ pyIn "workbooks" msg = true) :=
  execute_validation_rejects_unsupported _ envOk (Or.inl (by decide))

end TableauProvider
